import Mathlib

/-!
Verification development for the smart-traffic repository.

Part 1 embeds `smart_traffic_system/controllers/traffic_controller.py`
(class `TrafficSignalController`) together with the constants it reads from
`smart_traffic_system/config.py`.

Part 2 embeds the queue simulator of `smart_traffic/traffic_simulation/`
(`vehicle.py` and `intersection.py`) with the constants of
`smart_traffic/config.py`.

Modelling conventions:
* Values of the Python real-time clock `time.time()` are modelled as
  integers; the several `time.time()` calls made inside one `update` call
  are all modelled as the single instant `now` passed to the call.
* The `vehicle_counts` dict argument is an association list, preserving the
  insertion order in which `_check_emergency` iterates it.
* A value of that dict may be a bare int or a dict with keys
  `total_vehicles` and `emergency`; `CountData` has one constructor per
  shape, with the `.get` defaults folded into the fields.
* `list.index(x)` raising `ValueError` when `x` is absent is modelled by
  returning the state as mutated up to the raise, paired with `none` in
  place of the result dictionary.
-/

namespace Ctl

/-- The `SignalState` enum of `traffic_controller.py`. -/
inductive SignalState
  | RED
  | YELLOW
  | GREEN
  | ALL_RED
deriving DecidableEq

/-- `SIGNAL_SEQUENCE` from `smart_traffic_system/config.py`. -/
def SIGNAL_SEQUENCE : List String := ["NORTH", "EAST", "SOUTH", "WEST"]

/-- `ENABLE_EMERGENCY_DETECTION` from `smart_traffic_system/config.py`. -/
def ENABLE_EMERGENCY_DETECTION : Bool := true

/-- The timing constants of `smart_traffic_system/config.py` that
`TrafficSignalController.__init__` copies into instance fields. -/
structure Config where
  MAX_GREEN_TIME : Int
  MIN_GREEN_TIME : Int
  YELLOW_TIME : Int
  ALL_RED_TIME : Int
  CLEARANCE_THRESHOLD : Int
  CLEARANCE_WAIT_TIME : Int
deriving DecidableEq

/-- The concrete constant values written in `smart_traffic_system/config.py`. -/
def defaultConfig : Config := ⟨30, 10, 5, 2, 3, 5⟩

/-- One value of the `vehicle_counts` dict: `update` accepts both a bare
integer and a dict (`isinstance(current_data, dict)` branch). -/
inductive CountData
  | int (n : Int)
  | dict (total_vehicles : Int) (emergency : Bool)
deriving DecidableEq

/-- `current_data.get('total_vehicles', 0)` when the value is a dict, the
value itself otherwise (lines 94-97). -/
def CountData.total : CountData → Int
  | .int n => n
  | .dict t _ => t

/-- `isinstance(data, dict) and data.get('emergency', False)` (line 236). -/
def CountData.emergencyFlag : CountData → Bool
  | .int _ => false
  | .dict _ e => e

/-- One entry of `self.signal_change_history`. -/
structure SwitchRecord where
  time : Int
  from_side : String
  to_side : String
  duration : Int
  reason : String
deriving DecidableEq

/-- The dictionary returned by `update` / `_switch_to_next_signal` /
`_handle_emergency`, restricted to the keys the claims are about. -/
structure UpdateResult where
  switched : Bool
  from_side : Option String
  to_side : Option String
  emergency : Bool
  reason : String
deriving DecidableEq

/-- The mutable fields of a `TrafficSignalController` instance.
`self.signal_sequence` is always the constant `SIGNAL_SEQUENCE` and is kept
as a global definition.  The `signal_states` dict is modelled as a total
function; the keys actually present are the members of `SIGNAL_SEQUENCE`
(plus any key created by the dict write on line 167). -/
structure ControllerState where
  current_side_index : Nat
  current_side : String
  signal_states : String → SignalState
  max_green_time : Int
  min_green_time : Int
  yellow_time : Int
  all_red_time : Int
  clearance_threshold : Int
  clearance_wait_time : Int
  low_traffic_start_time : Option Int
  green_start_time : Int
  current_green_duration : Int
  emergency_mode : Bool
  emergency_side : Option String
  total_cycles : Nat
  signal_change_history : List SwitchRecord

/-- `TrafficSignalController.__init__` (lines 34-75): no validation of the
configuration is performed; all sides start RED and the first sequence side
is set GREEN. -/
def init (cfg : Config) (now : Int) : ControllerState where
  current_side_index := 0
  current_side := SIGNAL_SEQUENCE.getD 0 ""
  signal_states := fun side =>
    if side = SIGNAL_SEQUENCE.getD 0 "" then SignalState.GREEN else SignalState.RED
  max_green_time := cfg.MAX_GREEN_TIME
  min_green_time := cfg.MIN_GREEN_TIME
  yellow_time := cfg.YELLOW_TIME
  all_red_time := cfg.ALL_RED_TIME
  clearance_threshold := cfg.CLEARANCE_THRESHOLD
  clearance_wait_time := cfg.CLEARANCE_WAIT_TIME
  low_traffic_start_time := none
  green_start_time := now
  current_green_duration := 0
  emergency_mode := false
  emergency_side := none
  total_cycles := 0
  signal_change_history := []

/-- `_should_switch_signal` (lines 120-154), returning the decision together
with the updated `low_traffic_start_time` (the Python method mutates that
field in place). -/
def should_switch_signal (st : ControllerState) (current_vehicles : Int) (now : Int) :
    Bool × Option Int :=
  if st.current_green_duration < st.min_green_time then
    (false, st.low_traffic_start_time)
  else if st.current_green_duration ≥ st.max_green_time then
    (true, st.low_traffic_start_time)
  else if current_vehicles ≤ st.clearance_threshold then
    let lowStart := st.low_traffic_start_time.getD now
    (decide (now - lowStart ≥ st.clearance_wait_time), some lowStart)
  else
    (false, none)

/-- `_get_switch_reason` (lines 216-223). -/
def get_switch_reason (st : ControllerState) (duration : Int) : String :=
  if duration ≥ st.max_green_time then "Maximum time reached"
  else if st.low_traffic_start_time.isSome then "Early clearance - low traffic"
  else "Standard switch"

/-- The signal reassignment loop shared verbatim by `_handle_emergency`
(lines 265-269) and `manual_override` (lines 325-329): every side in the
sequence is written, the target GREEN and the rest RED; keys outside the
sequence are untouched. -/
def assign_green (target : String) (old : String → SignalState) : String → SignalState :=
  fun side =>
    if side ∈ SIGNAL_SEQUENCE then
      if side = target then SignalState.GREEN else SignalState.RED
    else old side

/-- The net effect on the `signal_states` dict of `_switch_to_next_signal`:
line 167 first writes YELLOW at the old current side (a dict write that
creates the key if absent), then the loop of lines 174-181 overwrites every
side of the sequence — the new side GREEN, the previous side YELLOW, the
rest RED.  For a key outside the sequence only the line-167 write is
visible. -/
def switch_assign (cur prev : String) (old : String → SignalState) :
    String → SignalState :=
  fun side =>
    if side ∈ SIGNAL_SEQUENCE then
      if side = cur then SignalState.GREEN
      else if side = prev then SignalState.YELLOW
      else SignalState.RED
    else if side = prev then SignalState.YELLOW else old side

/-- `_switch_to_next_signal` (lines 156-214). -/
def switch_to_next_signal (st : ControllerState) (now : Int) :
    ControllerState × UpdateResult :=
  let previous_side := st.current_side
  let previous_duration := st.current_green_duration
  -- line 167: `self.signal_states[self.current_side] = SignalState.YELLOW`
  -- (a dict write, creating the key when `current_side` is not present)
  let states1 : String → SignalState := fun side =>
    if side = previous_side then SignalState.YELLOW else st.signal_states side
  let reason := get_switch_reason st previous_duration
  let idx := (st.current_side_index + 1) % SIGNAL_SEQUENCE.length
  let cur := SIGNAL_SEQUENCE.getD idx ""
  -- lines 174-181: `for side in self.signal_sequence: ...`
  let states2 : String → SignalState := fun side =>
    if side ∈ SIGNAL_SEQUENCE then
      if side = cur then SignalState.GREEN
      else if side = previous_side then SignalState.YELLOW
      else SignalState.RED
    else states1 side
  let cycles :=
    if cur = SIGNAL_SEQUENCE.getD 0 "" then st.total_cycles + 1 else st.total_cycles
  let st' := { st with
    current_side_index := idx
    current_side := cur
    signal_states := states2
    green_start_time := now
    low_traffic_start_time := none
    total_cycles := cycles
    signal_change_history :=
      st.signal_change_history ++ [⟨now, previous_side, cur, previous_duration, reason⟩] }
  (st', ⟨true, some previous_side, some cur, false, reason⟩)

/-- `_check_emergency` (lines 225-238): the first side (in dict insertion
order) whose value is a dict with a truthy `emergency` key. -/
def check_emergency (vehicle_counts : List (String × CountData)) : Option String :=
  (vehicle_counts.find? fun p => p.2.emergencyFlag).map (·.1)

/-- `_handle_emergency` (lines 240-281).  Note that `self.emergency_side` is
never assigned and `self.low_traffic_start_time` is never reset on this
path.  When the reported side is not in the sequence,
`self.signal_sequence.index(emergency_side)` raises `ValueError` after
`current_side` has already been reassigned (line 261 precedes line 262). -/
def handle_emergency (st : ControllerState) (emergency_side : String) (now : Int) :
    ControllerState × Option UpdateResult :=
  if emergency_side = st.current_side then
    (st, some ⟨false, none, none, true,
      "Emergency vehicle on active side - extending green"⟩)
  else
    let previous_side := st.current_side
    let st1 := { st with current_side := emergency_side }
    if emergency_side ∈ SIGNAL_SEQUENCE then
      let st2 := { st1 with
        current_side_index := SIGNAL_SEQUENCE.indexOf emergency_side
        signal_states := assign_green emergency_side st.signal_states
        green_start_time := now
        emergency_mode := true }
      (st2, some ⟨true, some previous_side, some emergency_side, true,
        "EMERGENCY VEHICLE DETECTED - Immediate switch"⟩)
    else
      (st1, none)

/-- `update` (lines 77-118), the per-tick entry point. -/
def update (st0 : ControllerState) (vehicle_counts : List (String × CountData))
    (now : Int) : ControllerState × Option UpdateResult :=
  let st := { st0 with current_green_duration := now - st0.green_start_time }
  let current_data := (vehicle_counts.lookup st0.current_side).getD (CountData.int 0)
  let current_vehicles := current_data.total
  let emergency_detected :=
    bif ENABLE_EMERGENCY_DETECTION then check_emergency vehicle_counts else none
  match emergency_detected with
  | some e => handle_emergency st e now
  | none =>
    let dec := should_switch_signal st current_vehicles now
    let st1 := { st with low_traffic_start_time := dec.2 }
    if dec.1 then
      let r := switch_to_next_signal st1 now
      (r.1, some r.2)
    else
      (st1, some ⟨false, none, none, false, "Continuing current signal"⟩)

/-- `manual_override` (lines 305-333). -/
def manual_override (st : ControllerState) (target_side : String) (now : Int) :
    ControllerState × Bool :=
  if target_side ∉ SIGNAL_SEQUENCE then (st, false)
  else if target_side = st.current_side then (st, true)
  else
    ({ st with
        current_side := target_side
        current_side_index := SIGNAL_SEQUENCE.indexOf target_side
        signal_states := assign_green target_side st.signal_states
        green_start_time := now }, true)

/-- The state after construction at time 0 (with the repository
configuration) followed by one `update` at time 30 with an empty snapshot:
the max-green bound forces a switch from NORTH to EAST. -/
def afterFirstSwitch : ControllerState := (update (init defaultConfig 0) [] 30).1

/-- A configuration with `MIN_GREEN_TIME` (30) greater than
`MAX_GREEN_TIME` (10), and otherwise the repository values. -/
def c6_badConfig : Config := ⟨10, 30, 5, 2, 3, 5⟩

/-- A snapshot reporting an emergency both on NORTH (listed first) and on
SOUTH. -/
def c4_counts_both : List (String × CountData) :=
  [("NORTH", CountData.dict 5 true), ("SOUTH", CountData.dict 5 true)]

/-- A snapshot reporting an emergency on SOUTH only. -/
def c4_counts_south : List (String × CountData) :=
  [("SOUTH", CountData.dict 5 true)]

/-- The state after construction at time 0 followed by one `update` at time
11 reporting 0 vehicles on NORTH: the low-traffic timer starts at 11 while
NORTH stays GREEN. -/
def c7_mid : ControllerState :=
  (update (init defaultConfig 0) [("NORTH", CountData.int 0)] 11).1

/-- Controller states reachable from construction by any sequence of
`update` and `manual_override` calls (emergency handling runs inside
`update`). -/
inductive Reachable : ControllerState → Prop
  | construct (cfg : Config) (now : Int) : Reachable (init cfg now)
  | update_call {st : ControllerState} (h : Reachable st)
      (counts : List (String × CountData)) (now : Int) :
      Reachable (update st counts now).1
  | manual_call {st : ControllerState} (h : Reachable st)
      (target : String) (now : Int) :
      Reachable (manual_override st target now).1

/-- At most one key of the `signal_states` dict maps to GREEN. -/
def AtMostOneGreen (f : String → SignalState) : Prop :=
  ∀ s t, f s = SignalState.GREEN → f t = SignalState.GREEN → s = t

/-- Keys outside the configured sequence are never GREEN. -/
def NonSeqNotGreen (f : String → SignalState) : Prop :=
  ∀ s, s ∉ SIGNAL_SEQUENCE → f s ≠ SignalState.GREEN

/-- At most one configured side is YELLOW. -/
def AtMostOneYellowSeq (f : String → SignalState) : Prop :=
  ∀ s t, s ∈ SIGNAL_SEQUENCE → t ∈ SIGNAL_SEQUENCE →
    f s = SignalState.YELLOW → f t = SignalState.YELLOW → s = t

/-- No configured side is ever ALL_RED (that enum member is never written). -/
def NoAllRedSeq (f : String → SignalState) : Prop :=
  ∀ s, s ∈ SIGNAL_SEQUENCE → f s ≠ SignalState.ALL_RED

/-- The signal-table invariant maintained by every controller entry point. -/
def SignalInv (st : ControllerState) : Prop :=
  AtMostOneGreen st.signal_states ∧ NonSeqNotGreen st.signal_states ∧
    AtMostOneYellowSeq st.signal_states ∧ NoAllRedSeq st.signal_states

end Ctl

namespace Sim

/-- The four sides of the `smart_traffic` simulation: the code works with the
fixed strings NORTH/SOUTH/EAST/WEST, here a closed enumeration. -/
inductive Side
  | NORTH
  | SOUTH
  | EAST
  | WEST
deriving DecidableEq, BEq

/-- The vehicle types drawn by `TrafficGenerator` (the keys of
`VEHICLE_PROBABILITIES` in `smart_traffic/config.py`, which are also the
keys of `Intersection.vehicles_crossed_by_type`). -/
inductive VehicleType
  | CAR
  | TRUCK
  | BUS
deriving DecidableEq, BEq

/-- `VEHICLE_SPEED` from `smart_traffic/config.py`. -/
def VEHICLE_SPEED : Int := 3

/-- The fields of `Vehicle` (`vehicle.py`) that the motion logic reads or
writes.  `vehicle_id` is the randomly generated license plate (an opaque
string here); display-only fields (width, height, color) are omitted. -/
structure Vehicle where
  side : Side
  position : Nat
  vehicle_type : VehicleType
  vehicle_id : String
  x : Int
  y : Int
  speed : Int
  crossed : Bool
  crossed_signal : Bool
  turn_direction : Nat
  is_turning : Bool
  original_side : Side
deriving DecidableEq

/-- `_at_intersection_center` (lines 119-131). -/
def Vehicle.at_intersection_center (v : Vehicle) (center_x center_y : Int) : Bool :=
  match v.original_side with
  | .NORTH => (v.y - center_y).natAbs < 30
  | .SOUTH => (v.y - center_y).natAbs < 30
  | .EAST => (v.x - center_x).natAbs < 30
  | .WEST => (v.x - center_x).natAbs < 30

/-- `_execute_turn` (lines 133-157). -/
def Vehicle.execute_turn (v : Vehicle) : Vehicle :=
  if v.turn_direction = 1 then
    { v with side :=
        match v.side with
        | .NORTH => .WEST
        | .WEST => .SOUTH
        | .SOUTH => .EAST
        | .EAST => .NORTH }
  else if v.turn_direction = 2 then
    { v with side :=
        match v.side with
        | .NORTH => .EAST
        | .EAST => .SOUTH
        | .SOUTH => .WEST
        | .WEST => .NORTH }
  else v

/-- `_check_if_crossed` (lines 159-172). -/
def Vehicle.check_if_crossed (v : Vehicle) (center_x center_y : Int) : Vehicle :=
  let crossing_distance : Int := 400
  match v.side with
  | .NORTH => if v.y > center_y + crossing_distance then { v with crossed := true } else v
  | .SOUTH => if v.y < center_y - crossing_distance then { v with crossed := true } else v
  | .EAST => if v.x < center_x - crossing_distance then { v with crossed := true } else v
  | .WEST => if v.x > center_x + crossing_distance then { v with crossed := true } else v

/-- `_check_if_crossed_signal` (lines 174-191). -/
def Vehicle.check_if_crossed_signal (v : Vehicle) (center_x center_y : Int) : Vehicle :=
  if v.crossed_signal then v
  else
    let stop_distance : Int := 150
    match v.original_side with
    | .NORTH => if v.y > center_y - stop_distance then { v with crossed_signal := true } else v
    | .SOUTH => if v.y < center_y + stop_distance then { v with crossed_signal := true } else v
    | .EAST => if v.x < center_x + stop_distance then { v with crossed_signal := true } else v
    | .WEST => if v.x > center_x - stop_distance then { v with crossed_signal := true } else v

/-- The per-side advance block of `Vehicle.move` (lines 104-111). -/
def Vehicle.advance (v : Vehicle) : Vehicle :=
  match v.side with
  | .NORTH => { v with y := v.y + v.speed }
  | .SOUTH => { v with y := v.y - v.speed }
  | .EAST => { v with x := v.x - v.speed }
  | .WEST => { v with x := v.x + v.speed }

/-- `Vehicle.move` (lines 89-117): a vehicle with `crossed` set returns
immediately, otherwise it may start its turn, advances by its speed along
its current side, and refreshes both crossed flags. -/
def Vehicle.move (v : Vehicle) (window_size : Int × Int) : Vehicle :=
  if v.crossed then v
  else
    let center_x := window_size.1 / 2
    let center_y := window_size.2 / 2
    let v1 :=
      if !v.is_turning && v.at_intersection_center center_x center_y then
        Vehicle.execute_turn { v with is_turning := true }
      else v
    let v2 := v1.advance
    let v3 := v2.check_if_crossed center_x center_y
    v3.check_if_crossed_signal center_x center_y

/-- `_calculate_distance_to` (lines 237-247). -/
def Vehicle.calculate_distance_to (v other : Vehicle) : Int :=
  match v.original_side with
  | .NORTH => other.y - v.y
  | .SOUTH => v.y - other.y
  | .EAST => v.x - other.x
  | .WEST => other.x - v.x

/-- `Vehicle.should_stop` (lines 193-235): a vehicle past the signal line
never stops (neither for the signal nor for vehicles ahead); otherwise it
stops behind any vehicle ahead within the 50-pixel minimum distance, and
otherwise stops on red within the stop-line approach band. -/
def Vehicle.should_stop (v : Vehicle) (signal_is_red : Bool)
    (vehicles_ahead : List Vehicle) (window_size : Int × Int) : Bool :=
  if v.crossed_signal then false
  else if vehicles_ahead.any fun other => v.calculate_distance_to other < 50 then true
  else if !signal_is_red then false
  else
    let center_x := window_size.1 / 2
    let center_y := window_size.2 / 2
    let stop_distance : Int := 150
    match v.original_side with
    | .NORTH => decide (v.y ≥ center_y - stop_distance - 10)
    | .SOUTH => decide (v.y ≤ center_y + stop_distance + 10)
    | .EAST => decide (v.x ≤ center_x + stop_distance + 10)
    | .WEST => decide (v.x ≥ center_x - stop_distance - 10)

/-- The per-side move loop of `Intersection.update` (lines 57-68): vehicles
are processed front to back; vehicle `i` consults `self.vehicles[side][:i]`,
which (because the loop mutates the shared objects in place) already holds
the vehicles ahead as updated this tick. -/
def move_pass (signal_is_red : Bool) (window_size : Int × Int) :
    List Vehicle → List Vehicle → List Vehicle
  | _, [] => []
  | ahead, v :: rest =>
    let v' := if v.should_stop signal_is_red ahead window_size then v
              else v.move window_size
    v' :: move_pass signal_is_red window_size (ahead ++ [v']) rest

/-- The fixed key order of the `self.vehicles` dict in `intersection.py`. -/
def SIDES : List Side := [.NORTH, .SOUTH, .EAST, .WEST]

/-- The state of `Intersection` (`intersection.py`): one queue per side plus
the cumulative crossing statistics.  The embedded signal controller is not
part of this state; `update` receives its per-side `is_red` answers as an
argument. -/
structure Intersection where
  vehicles : Side → List Vehicle
  window_size : Int × Int
  total_vehicles_crossed : Nat
  vehicles_crossed_by_type : VehicleType → Nat

/-- The spawn step of `Intersection.update` (lines 47-54).  The random
outcome of `TrafficGenerator.generate_vehicle` is supplied as the oracle
`spawns`; a spawned vehicle is appended at the back of its queue. -/
def spawned_queue (ins : Intersection) (spawns : Side → Option Vehicle)
    (s : Side) : List Vehicle :=
  match spawns s with
  | some v => ins.vehicles s ++ [v]
  | none => ins.vehicles s

/-- A side queue after the spawn and move passes of one tick. -/
def moved_queue (ins : Intersection) (red : Side → Bool)
    (spawns : Side → Option Vehicle) (s : Side) : List Vehicle :=
  move_pass (red s) ins.window_size [] (spawned_queue ins spawns s)

/-- `Intersection.update` (lines 41-71) followed by
`_remove_crossed_vehicles` (lines 73-85): spawn, move, then count every
crossed vehicle into the totals and drop it from its queue.  The per-side
loop of `_remove_crossed_vehicles` is written as a sum over `SIDES`
(additions on the counters commute). -/
def Intersection.update (ins : Intersection) (red : Side → Bool)
    (spawns : Side → Option Vehicle) : Intersection :=
  let moved := moved_queue ins red spawns
  { vehicles := fun s => (moved s).filter fun v => !v.crossed
    window_size := ins.window_size
    total_vehicles_crossed := ins.total_vehicles_crossed +
      (SIDES.map fun s => ((moved s).filter fun v => v.crossed).length).sum
    vehicles_crossed_by_type := fun t => ins.vehicles_crossed_by_type t +
      (SIDES.map fun s =>
        ((moved s).filter fun v => v.crossed && v.vehicle_type == t).length).sum }

/-- Concrete front vehicle for analysing the car-following claim: on NORTH
past the signal line (y = 400 > 540 - 150), going straight, not crossed. -/
def c8_front : Vehicle :=
  { side := .NORTH, position := 0, vehicle_type := .CAR, vehicle_id := "UP10A1000",
    x := 880, y := 400, speed := 3, crossed := false, crossed_signal := true,
    turn_direction := 0, is_turning := false, original_side := .NORTH }

/-- Concrete rear vehicle 5 pixels behind `c8_front`, also past the signal
line. -/
def c8_rear : Vehicle :=
  { side := .NORTH, position := 1, vehicle_type := .CAR, vehicle_id := "UP20B2000",
    x := 880, y := 395, speed := 3, crossed := false, crossed_signal := true,
    turn_direction := 0, is_turning := false, original_side := .NORTH }

/-- Concrete front vehicle before the signal line (y = 300 < 390). -/
def c8w_front : Vehicle :=
  { side := .NORTH, position := 0, vehicle_type := .CAR, vehicle_id := "UP30C3000",
    x := 880, y := 300, speed := 3, crossed := false, crossed_signal := false,
    turn_direction := 0, is_turning := false, original_side := .NORTH }

/-- Concrete rear vehicle 40 pixels behind `c8w_front` (inside the 50-pixel
minimum following gap), before the signal line. -/
def c8w_rear : Vehicle :=
  { side := .NORTH, position := 1, vehicle_type := .CAR, vehicle_id := "UP40D4000",
    x := 880, y := 260, speed := 3, crossed := false, crossed_signal := false,
    turn_direction := 0, is_turning := false, original_side := .NORTH }

/-- A front vehicle that has turned left (NORTH→WEST) at the center: it now
travels along x with its y frozen at 530, still a member of the NORTH
queue. -/
def c8t_front : Vehicle :=
  { side := .WEST, position := 0, vehicle_type := .CAR, vehicle_id := "UP60F6000",
    x := 900, y := 530, speed := 3, crossed := false, crossed_signal := true,
    turn_direction := 1, is_turning := true, original_side := .NORTH }

/-- A rear vehicle going straight on NORTH, 2 pixels behind the turned
front vehicle along the NORTH axis. -/
def c8t_rear : Vehicle :=
  { side := .NORTH, position := 1, vehicle_type := .CAR, vehicle_id := "UP70G7000",
    x := 880, y := 528, speed := 3, crossed := false, crossed_signal := true,
    turn_direction := 0, is_turning := false, original_side := .NORTH }

/-- A concrete vehicle whose `crossed` flag is set. -/
def c10_vehicle : Vehicle :=
  { side := .NORTH, position := 0, vehicle_type := .BUS, vehicle_id := "UP50E5000",
    x := 880, y := 990, speed := 3, crossed := true, crossed_signal := true,
    turn_direction := 0, is_turning := false, original_side := .NORTH }

/-- The freshly constructed intersection: all queues empty, no statistics. -/
def empty_intersection : Intersection :=
  { vehicles := fun _ => []
    window_size := (1920, 1080)
    total_vehicles_crossed := 0
    vehicles_crossed_by_type := fun _ => 0 }

end Sim


namespace Ctl

lemma first_mem_seq : SIGNAL_SEQUENCE.getD 0 "" ∈ SIGNAL_SEQUENCE := by decide

lemma signalInv_init (cfg : Config) (now : Int) : SignalInv (init cfg now) := by
  have hval : ∀ s, (init cfg now).signal_states s =
      if s = SIGNAL_SEQUENCE.getD 0 "" then SignalState.GREEN else SignalState.RED :=
    fun _ => rfl
  have key : ∀ s, (init cfg now).signal_states s = SignalState.GREEN →
      s = SIGNAL_SEQUENCE.getD 0 "" := by
    intro s hs
    rw [hval s] at hs
    by_cases h1 : s = SIGNAL_SEQUENCE.getD 0 ""
    · exact h1
    · rw [if_neg h1] at hs
      exact absurd hs (by simp)
  refine ⟨fun s t hs ht => (key s hs).trans (key t ht).symm, ?_, ?_, ?_⟩
  · intro s hs hgreen
    exact hs (by rw [key s hgreen]; exact first_mem_seq)
  · intro s t _ _ hs
    rw [hval s] at hs
    by_cases h1 : s = SIGNAL_SEQUENCE.getD 0 ""
    · rw [if_pos h1] at hs
      exact absurd hs (by decide)
    · rw [if_neg h1] at hs
      exact absurd hs (by decide)
  · intro s _ hs
    rw [hval s] at hs
    by_cases h1 : s = SIGNAL_SEQUENCE.getD 0 ""
    · rw [if_pos h1] at hs
      exact absurd hs (by decide)
    · rw [if_neg h1] at hs
      exact absurd hs (by decide)

lemma signalInv_assign_green {old : String → SignalState} (g : String)
    (hold : NonSeqNotGreen old) :
    AtMostOneGreen (assign_green g old) ∧ NonSeqNotGreen (assign_green g old) ∧
      AtMostOneYellowSeq (assign_green g old) ∧ NoAllRedSeq (assign_green g old) := by
  have key : ∀ s, assign_green g old s = SignalState.GREEN → s = g := by
    intro s hs
    by_cases hm : s ∈ SIGNAL_SEQUENCE
    · rw [assign_green, if_pos hm] at hs
      by_cases hg : s = g
      · exact hg
      · rw [if_neg hg] at hs
        exact absurd hs (by decide)
    · rw [assign_green, if_neg hm] at hs
      exact absurd hs (hold s hm)
  refine ⟨fun s t hs ht => (key s hs).trans (key t ht).symm, ?_, ?_, ?_⟩
  · intro s hm
    rw [assign_green, if_neg hm]
    exact hold s hm
  · intro s t hs _ hys _
    rw [assign_green, if_pos hs] at hys
    by_cases hg : s = g
    · rw [if_pos hg] at hys
      exact absurd hys (by decide)
    · rw [if_neg hg] at hys
      exact absurd hys (by decide)
  · intro s hm hs
    rw [assign_green, if_pos hm] at hs
    by_cases hg : s = g
    · rw [if_pos hg] at hs
      exact absurd hs (by decide)
    · rw [if_neg hg] at hs
      exact absurd hs (by decide)

lemma signalInv_switch_assign {old : String → SignalState} (cur prev : String)
    (hold : NonSeqNotGreen old) :
    AtMostOneGreen (switch_assign cur prev old) ∧
      NonSeqNotGreen (switch_assign cur prev old) ∧
      AtMostOneYellowSeq (switch_assign cur prev old) ∧
      NoAllRedSeq (switch_assign cur prev old) := by
  have key : ∀ s, switch_assign cur prev old s = SignalState.GREEN → s = cur := by
    intro s hs
    by_cases hm : s ∈ SIGNAL_SEQUENCE
    · rw [switch_assign, if_pos hm] at hs
      by_cases h1 : s = cur
      · exact h1
      · rw [if_neg h1] at hs
        by_cases h2 : s = prev
        · rw [if_pos h2] at hs
          exact absurd hs (by decide)
        · rw [if_neg h2] at hs
          exact absurd hs (by decide)
    · rw [switch_assign, if_neg hm] at hs
      by_cases h2 : s = prev
      · rw [if_pos h2] at hs
        exact absurd hs (by decide)
      · rw [if_neg h2] at hs
        exact absurd hs (hold s hm)
  have keyY : ∀ s, s ∈ SIGNAL_SEQUENCE →
      switch_assign cur prev old s = SignalState.YELLOW → s = prev := by
    intro s hm hs
    rw [switch_assign, if_pos hm] at hs
    by_cases h1 : s = cur
    · rw [if_pos h1] at hs
      exact absurd hs (by decide)
    · rw [if_neg h1] at hs
      by_cases h2 : s = prev
      · exact h2
      · rw [if_neg h2] at hs
        exact absurd hs (by decide)
  refine ⟨fun s t hs ht => (key s hs).trans (key t ht).symm, ?_, ?_, ?_⟩
  · intro s hm
    rw [switch_assign, if_neg hm]
    by_cases h2 : s = prev
    · rw [if_pos h2]
      decide
    · rw [if_neg h2]
      exact hold s hm
  · exact fun s t hs ht hys hyt => (keyY s hs hys).trans (keyY t ht hyt).symm
  · intro s hm hs
    rw [switch_assign, if_pos hm] at hs
    by_cases h1 : s = cur
    · rw [if_pos h1] at hs
      exact absurd hs (by decide)
    · rw [if_neg h1] at hs
      by_cases h2 : s = prev
      · rw [if_pos h2] at hs
        exact absurd hs (by decide)
      · rw [if_neg h2] at hs
        exact absurd hs (by decide)

lemma update_states_cases (st : ControllerState)
    (counts : List (String × CountData)) (now : Int) :
    (update st counts now).1.signal_states = st.signal_states ∨
    (∃ e, (update st counts now).1.signal_states = assign_green e st.signal_states) ∨
    (update st counts now).1.signal_states =
      switch_assign
        (SIGNAL_SEQUENCE.getD
          ((st.current_side_index + 1) % SIGNAL_SEQUENCE.length) "")
        st.current_side st.signal_states := by
  unfold update
  simp only [ENABLE_EMERGENCY_DETECTION, cond_true]
  rcases h : check_emergency counts with _ | e
  · simp only [h]
    split
    · right; right; rfl
    · left; rfl
  · simp only [h]
    unfold handle_emergency
    split_ifs with hcur hmem
    · left; rfl
    · right; left; exact ⟨e, rfl⟩
    · left; rfl

lemma signalInv_update (st : ControllerState) (counts : List (String × CountData))
    (now : Int) (h : SignalInv st) : SignalInv (update st counts now).1 := by
  obtain ⟨h1, h2, h3, h4⟩ := h
  rcases update_states_cases st counts now with hc | ⟨e, hc⟩ | hc
  · exact ⟨hc ▸ h1, hc ▸ h2, hc ▸ h3, hc ▸ h4⟩
  · simp only [SignalInv]
    rw [hc]
    exact signalInv_assign_green e h2
  · simp only [SignalInv]
    rw [hc]
    exact signalInv_switch_assign _ _ h2

lemma signalInv_manual (st : ControllerState) (target : String) (now : Int)
    (h : SignalInv st) : SignalInv (manual_override st target now).1 := by
  obtain ⟨h1, h2, h3, h4⟩ := h
  unfold manual_override
  split_ifs with hmem hcur
  · exact ⟨h1, h2, h3, h4⟩
  · simp only [SignalInv]
    exact signalInv_assign_green target h2
  · exact ⟨h1, h2, h3, h4⟩

/-- Every reachable controller state satisfies the signal-table invariant. -/
theorem reachable_signalInv {st : ControllerState} (h : Reachable st) :
    SignalInv st := by
  induction h with
  | construct cfg now => exact signalInv_init cfg now
  | update_call _ counts now ih => exact signalInv_update _ counts now ih
  | manual_call _ target now ih => exact signalInv_manual _ target now ih


end Ctl
/-- C1: For every reachable controller state (initial state, and after any
sequence of update, emergency handling, and manual_override calls), no two
sides simultaneously have signal state GREEN. -/
theorem C1_no_two_sides_green (st : Ctl.ControllerState) (h : Ctl.Reachable st)
    (s t : String) (hst : s ≠ t) :
    ¬ (st.signal_states s = Ctl.SignalState.GREEN ∧
       st.signal_states t = Ctl.SignalState.GREEN) := by
  rintro ⟨hs, ht⟩
  exact hst ((Ctl.reachable_signalInv h).1 s t hs ht)

/-- Witness for C1 at the freshly constructed controller and the side pair
NORTH/SOUTH. -/
theorem C1_witness :
    Ctl.Reachable (Ctl.init Ctl.defaultConfig 0) ∧
      ¬ ((Ctl.init Ctl.defaultConfig 0).signal_states "NORTH" = Ctl.SignalState.GREEN ∧
         (Ctl.init Ctl.defaultConfig 0).signal_states "SOUTH" = Ctl.SignalState.GREEN) :=
  ⟨Ctl.Reachable.construct Ctl.defaultConfig 0,
    C1_no_two_sides_green _ (Ctl.Reachable.construct Ctl.defaultConfig 0)
      "NORTH" "SOUTH" (by decide)⟩

/-- C2 counterexample: in the reachable state reached by one max-time
switch, the new side EAST is GREEN while the previous side NORTH is
simultaneously YELLOW, so two sides have a state in GREEN/YELLOW at the
same instant. -/
theorem C2_counterexample :
    Ctl.Reachable Ctl.afterFirstSwitch ∧
    Ctl.afterFirstSwitch.signal_states "EAST" = Ctl.SignalState.GREEN ∧
    Ctl.afterFirstSwitch.signal_states "NORTH" = Ctl.SignalState.YELLOW ∧
    ("EAST" : String) ≠ "NORTH" :=
  ⟨Ctl.Reachable.update_call (Ctl.Reachable.construct Ctl.defaultConfig 0) [] 30,
    by decide, by decide, by decide⟩

/-- C2 (amended): in every reachable controller state, among the configured
sides at most one is GREEN and at most one is YELLOW (the previously green
side keeps its YELLOW until the next reassignment); every configured side
that is neither that GREEN side nor that YELLOW side is RED. -/
theorem C2_amended_mutual_exclusion (st : Ctl.ControllerState)
    (h : Ctl.Reachable st) :
    (∀ s t, s ∈ Ctl.SIGNAL_SEQUENCE → t ∈ Ctl.SIGNAL_SEQUENCE →
       st.signal_states s = Ctl.SignalState.GREEN →
       st.signal_states t = Ctl.SignalState.GREEN → s = t) ∧
    (∀ s t, s ∈ Ctl.SIGNAL_SEQUENCE → t ∈ Ctl.SIGNAL_SEQUENCE →
       st.signal_states s = Ctl.SignalState.YELLOW →
       st.signal_states t = Ctl.SignalState.YELLOW → s = t) ∧
    (∀ s, s ∈ Ctl.SIGNAL_SEQUENCE →
       st.signal_states s ≠ Ctl.SignalState.GREEN →
       st.signal_states s ≠ Ctl.SignalState.YELLOW →
       st.signal_states s = Ctl.SignalState.RED) := by
  obtain ⟨h1, _, h3, h4⟩ := Ctl.reachable_signalInv h
  refine ⟨fun s t _ _ hs ht => h1 s t hs ht, h3, ?_⟩
  intro s hm hg hy
  cases hv : st.signal_states s with
  | RED => rfl
  | YELLOW => exact absurd hv hy
  | GREEN => exact absurd hv hg
  | ALL_RED => exact absurd hv (h4 s hm)

/-- Witness for the amended C2 at the state after the first switch: SOUTH
is neither GREEN nor YELLOW there, hence RED. -/
theorem C2_amended_witness :
    Ctl.Reachable Ctl.afterFirstSwitch ∧
    Ctl.afterFirstSwitch.signal_states "SOUTH" = Ctl.SignalState.RED :=
  ⟨Ctl.Reachable.update_call (Ctl.Reachable.construct Ctl.defaultConfig 0) [] 30,
    (C2_amended_mutual_exclusion Ctl.afterFirstSwitch
      (Ctl.Reachable.update_call (Ctl.Reachable.construct Ctl.defaultConfig 0) [] 30)).2.2
      "SOUTH" (by decide) (by decide) (by decide)⟩

/-- C5 (amended): manual_override returns false and leaves the state
unchanged for a target outside the configured sequence; for a target in the
sequence it returns true, and when the target differs from the current side
it makes the target GREEN, every other configured side RED, and resets the
phase start timer; when the target IS the current side it returns true with
no state change at all (so a leftover YELLOW side stays YELLOW and the
timer is not reset). -/
theorem C5_amended_manual_override (st : Ctl.ControllerState) (target : String)
    (now : Int) :
    (target ∉ Ctl.SIGNAL_SEQUENCE →
      Ctl.manual_override st target now = (st, false)) ∧
    (target ∈ Ctl.SIGNAL_SEQUENCE →
      (Ctl.manual_override st target now).2 = true ∧
      (target = st.current_side → (Ctl.manual_override st target now).1 = st) ∧
      (target ≠ st.current_side →
        (Ctl.manual_override st target now).1.current_side = target ∧
        (∀ s, s ∈ Ctl.SIGNAL_SEQUENCE →
          (Ctl.manual_override st target now).1.signal_states s =
            if s = target then Ctl.SignalState.GREEN else Ctl.SignalState.RED) ∧
        (Ctl.manual_override st target now).1.green_start_time = now)) := by
  unfold Ctl.manual_override
  by_cases hmem : target ∈ Ctl.SIGNAL_SEQUENCE
  · rw [if_neg (not_not_intro hmem)]
    refine ⟨fun hn => absurd hmem hn, fun _ => ?_⟩
    by_cases hcur : target = st.current_side
    · rw [if_pos hcur]
      exact ⟨rfl, fun _ => rfl, fun hne => absurd hcur hne⟩
    · rw [if_neg hcur]
      refine ⟨rfl, fun heq => absurd heq hcur, fun _ => ⟨rfl, fun s hs => ?_, rfl⟩⟩
      simp only [Ctl.assign_green, if_pos hs]
  · rw [if_pos hmem]
    exact ⟨fun _ => rfl, fun hm => absurd hm hmem⟩

/-- Witness for the amended C5: overriding to WEST from the freshly
constructed controller (current side NORTH) succeeds and resets the phase
start timer to the call time. -/
theorem C5_amended_witness :
    ("WEST" : String) ∈ Ctl.SIGNAL_SEQUENCE ∧
    (Ctl.manual_override (Ctl.init Ctl.defaultConfig 0) "WEST" 7).2 = true ∧
    (Ctl.manual_override (Ctl.init Ctl.defaultConfig 0) "WEST" 7).1.green_start_time = 7 :=
  ⟨by decide,
    ((C5_amended_manual_override (Ctl.init Ctl.defaultConfig 0) "WEST" 7).2
      (by decide)).1,
    (((C5_amended_manual_override (Ctl.init Ctl.defaultConfig 0) "WEST" 7).2
      (by decide)).2.2 (by decide)).2.2⟩

/-- C5 counterexample: in the reachable state after the first switch the
current side is EAST (GREEN) and NORTH is still YELLOW.  Calling
manual_override with the in-sequence target EAST returns true, yet NORTH
remains YELLOW (not RED) and the phase timer is not reset (it stays 30
although the call happens at time 40): the claim that every in-sequence
override makes all other sides RED and resets the timers is false. -/
theorem C5_counterexample :
    Ctl.Reachable Ctl.afterFirstSwitch ∧
    ("EAST" : String) ∈ Ctl.SIGNAL_SEQUENCE ∧
    Ctl.afterFirstSwitch.current_side = "EAST" ∧
    (Ctl.manual_override Ctl.afterFirstSwitch "EAST" 40).2 = true ∧
    (Ctl.manual_override Ctl.afterFirstSwitch "EAST" 40).1.signal_states "NORTH" =
      Ctl.SignalState.YELLOW ∧
    (Ctl.manual_override Ctl.afterFirstSwitch "EAST" 40).1.green_start_time = 30 :=
  ⟨Ctl.Reachable.update_call (Ctl.Reachable.construct Ctl.defaultConfig 0) [] 30,
    by decide, by decide, by decide, by decide, by decide⟩

/-- C6 counterexample: with MIN_GREEN_TIME (30) > MAX_GREEN_TIME (10) the
constructor does not fail — there is no validation — and the controller
comes up normally (NORTH GREEN) and even processes an update call. -/
theorem C6_counterexample :
    Ctl.c6_badConfig.MIN_GREEN_TIME > Ctl.c6_badConfig.MAX_GREEN_TIME ∧
    (Ctl.init Ctl.c6_badConfig 0).current_side = "NORTH" ∧
    (Ctl.init Ctl.c6_badConfig 0).signal_states "NORTH" = Ctl.SignalState.GREEN ∧
    (Ctl.update (Ctl.init Ctl.c6_badConfig 0) [] 100).2.isSome = true := by
  decide

/-- C6 (amended): construction performs no validation whatsoever — for
every configuration (minGreen > maxGreen and negative durations included)
it succeeds, with the first sequence side as the GREEN current side and
every other configured side RED. -/
theorem C6_amended_no_validation (cfg : Ctl.Config) (now : Int) :
    (Ctl.init cfg now).current_side = Ctl.SIGNAL_SEQUENCE.getD 0 "" ∧
    (Ctl.init cfg now).signal_states (Ctl.SIGNAL_SEQUENCE.getD 0 "") =
      Ctl.SignalState.GREEN ∧
    ∀ s, s ∈ Ctl.SIGNAL_SEQUENCE → s ≠ Ctl.SIGNAL_SEQUENCE.getD 0 "" →
      (Ctl.init cfg now).signal_states s = Ctl.SignalState.RED := by
  refine ⟨rfl, ?_, fun s _ hne => ?_⟩
  · show (if (Ctl.SIGNAL_SEQUENCE.getD 0 "") = Ctl.SIGNAL_SEQUENCE.getD 0 ""
        then Ctl.SignalState.GREEN else Ctl.SignalState.RED) = Ctl.SignalState.GREEN
    rw [if_pos rfl]
  · show (if s = Ctl.SIGNAL_SEQUENCE.getD 0 ""
        then Ctl.SignalState.GREEN else Ctl.SignalState.RED) = Ctl.SignalState.RED
    rw [if_neg hne]

/-- Witness for the amended C6 at the invalid configuration: EAST starts
RED. -/
theorem C6_amended_witness :
    (Ctl.init Ctl.c6_badConfig 5).signal_states "EAST" = Ctl.SignalState.RED :=
  (C6_amended_no_validation Ctl.c6_badConfig 5).2.2 "EAST" (by decide) (by decide)

/-- C4 counterexample: starting from the fresh controller (current side
NORTH, time 0), two concrete update calls refute the claim.  (1) With
emergencies reported on both NORTH (listed first) and SOUTH, a side other
than the current side (SOUTH) reports an emergency, yet no transition is
performed — SOUTH stays RED and the call returns the "extending green"
no-switch result.  (2) With an emergency on SOUTH alone the forced
transition does happen, but emergencySide is left at none rather than being
set to the target side. -/
theorem C4_counterexample :
    Ctl.c4_counts_both.lookup "SOUTH" = some (Ctl.CountData.dict 5 true) ∧
    (Ctl.init Ctl.defaultConfig 0).current_side = "NORTH" ∧
    (Ctl.update (Ctl.init Ctl.defaultConfig 0) Ctl.c4_counts_both 5).1.signal_states
      "SOUTH" = Ctl.SignalState.RED ∧
    (Ctl.update (Ctl.init Ctl.defaultConfig 0) Ctl.c4_counts_both 5).2 =
      some ⟨false, none, none, true,
        "Emergency vehicle on active side - extending green"⟩ ∧
    (Ctl.update (Ctl.init Ctl.defaultConfig 0) Ctl.c4_counts_south 5).1.current_side =
      "SOUTH" ∧
    (Ctl.update (Ctl.init Ctl.defaultConfig 0) Ctl.c4_counts_south 5).1.emergency_side =
      none := by
  decide

/-- C4 (amended): whenever the first side (in snapshot insertion order)
reporting an emergency is a configured side other than the current side,
update performs the immediate forced transition with no dwell and no
minimum-green restriction: the target becomes the current side and GREEN,
every other configured side becomes RED, the phase start timer is reset to
now, emergencyMode is set, the emergency result is returned — and
emergencySide is left unchanged (the code never assigns it). -/
theorem C4_amended_emergency_switch (st : Ctl.ControllerState)
    (counts : List (String × Ctl.CountData)) (now : Int) (e : String)
    (hce : Ctl.check_emergency counts = some e)
    (hne : e ≠ st.current_side)
    (hmem : e ∈ Ctl.SIGNAL_SEQUENCE) :
    (Ctl.update st counts now).1.current_side = e ∧
    (∀ s, s ∈ Ctl.SIGNAL_SEQUENCE →
      (Ctl.update st counts now).1.signal_states s =
        if s = e then Ctl.SignalState.GREEN else Ctl.SignalState.RED) ∧
    (Ctl.update st counts now).1.green_start_time = now ∧
    (Ctl.update st counts now).1.emergency_mode = true ∧
    (Ctl.update st counts now).1.emergency_side = st.emergency_side ∧
    (Ctl.update st counts now).2 =
      some ⟨true, some st.current_side, some e, true,
        "EMERGENCY VEHICLE DETECTED - Immediate switch"⟩ := by
  unfold Ctl.update
  simp only [Ctl.ENABLE_EMERGENCY_DETECTION, cond_true, hce]
  unfold Ctl.handle_emergency
  rw [if_neg hne, if_pos hmem]
  exact ⟨rfl, fun s hs => by simp only [Ctl.assign_green, if_pos hs], rfl, rfl, rfl, rfl⟩

/-- Witness for the amended C4: an emergency on SOUTH alone, seen from the
fresh controller at time 5 (elapsed 5 < minGreen 10), forces the immediate
transition to SOUTH. -/
theorem C4_amended_witness :
    Ctl.check_emergency Ctl.c4_counts_south = some "SOUTH" ∧
    (Ctl.update (Ctl.init Ctl.defaultConfig 0) Ctl.c4_counts_south 5).1.current_side =
      "SOUTH" ∧
    (Ctl.update (Ctl.init Ctl.defaultConfig 0) Ctl.c4_counts_south 5).1.emergency_mode =
      true :=
  ⟨by decide,
    (C4_amended_emergency_switch (Ctl.init Ctl.defaultConfig 0) Ctl.c4_counts_south 5
      "SOUTH" (by decide) (by decide) (by decide)).1,
    (C4_amended_emergency_switch (Ctl.init Ctl.defaultConfig 0) Ctl.c4_counts_south 5
      "SOUTH" (by decide) (by decide) (by decide)).2.2.2.1⟩

/-- C7 (amended): a snapshot with no entry for the current side is not
fatal, but it does NOT suppress early clearance — `vehicle_counts.get(side, 0)`
makes the missing entry behave exactly like an explicit count of 0 vehicles
(which is below the clearance threshold): the whole update call is equal to
the call with `(currentSide, 0)` prepended to the snapshot. -/
theorem C7_amended_missing_snapshot (st : Ctl.ControllerState)
    (counts : List (String × Ctl.CountData)) (now : Int)
    (hmiss : counts.lookup st.current_side = none) :
    Ctl.update st counts now =
      Ctl.update st ((st.current_side, Ctl.CountData.int 0) :: counts) now := by
  unfold Ctl.update
  have h1 : ((st.current_side, Ctl.CountData.int 0) :: counts).lookup st.current_side =
      some (Ctl.CountData.int 0) := by
    simp [List.lookup]
  have h2 : Ctl.check_emergency ((st.current_side, Ctl.CountData.int 0) :: counts) =
      Ctl.check_emergency counts := rfl
  rw [h1, h2, hmiss]
  rfl

/-- Witness for the amended C7: the fresh controller with an empty snapshot
at time 12 behaves exactly as if NORTH had reported 0 vehicles. -/
theorem C7_amended_witness :
    ([] : List (String × Ctl.CountData)).lookup
      (Ctl.init Ctl.defaultConfig 0).current_side = none ∧
    Ctl.update (Ctl.init Ctl.defaultConfig 0) [] 12 =
      Ctl.update (Ctl.init Ctl.defaultConfig 0)
        [((Ctl.init Ctl.defaultConfig 0).current_side, Ctl.CountData.int 0)] 12 :=
  ⟨by decide, C7_amended_missing_snapshot (Ctl.init Ctl.defaultConfig 0) [] 12 (by decide)⟩

/-- C7 counterexample: in the reachable state c7_mid (NORTH GREEN since
time 0, low-traffic timer running since time 11), an update at time 16 with
a snapshot that has NO entry for the current side produces a switch with
reason "Early clearance - low traffic", although the max-green bound is not
reached (elapsed 16 < 30): the missing snapshot does not suppress
early-clearance evaluation and a switch not caused by the min/max timing
bounds occurs. -/
theorem C7_counterexample :
    Ctl.Reachable Ctl.c7_mid ∧
    ([] : List (String × Ctl.CountData)).lookup Ctl.c7_mid.current_side = none ∧
    Ctl.c7_mid.min_green_time ≤ 16 - Ctl.c7_mid.green_start_time ∧
    16 - Ctl.c7_mid.green_start_time < Ctl.c7_mid.max_green_time ∧
    (Ctl.update Ctl.c7_mid [] 16).2 =
      some ⟨true, some "NORTH", some "EAST", false, "Early clearance - low traffic"⟩ :=
  ⟨Ctl.Reachable.update_call (Ctl.Reachable.construct Ctl.defaultConfig 0)
      [("NORTH", Ctl.CountData.int 0)] 11,
    by decide, by decide, by decide, by decide⟩

lemma should_switch_lt (st : Ctl.ControllerState) (n now : Int)
    (h : st.current_green_duration < st.min_green_time) :
    Ctl.should_switch_signal st n now = (false, st.low_traffic_start_time) := by
  unfold Ctl.should_switch_signal
  rw [if_pos h]

lemma should_switch_max (st : Ctl.ControllerState) (n now : Int)
    (h1 : ¬ st.current_green_duration < st.min_green_time)
    (h2 : st.current_green_duration ≥ st.max_green_time) :
    Ctl.should_switch_signal st n now = (true, st.low_traffic_start_time) := by
  unfold Ctl.should_switch_signal
  rw [if_neg h1, if_pos h2]

lemma should_switch_low (st : Ctl.ControllerState) (n now : Int)
    (h1 : ¬ st.current_green_duration < st.min_green_time)
    (h2 : ¬ st.current_green_duration ≥ st.max_green_time)
    (h3 : n ≤ st.clearance_threshold) :
    Ctl.should_switch_signal st n now =
      (decide (now - st.low_traffic_start_time.getD now ≥ st.clearance_wait_time),
        some (st.low_traffic_start_time.getD now)) := by
  unfold Ctl.should_switch_signal
  rw [if_neg h1, if_neg h2, if_pos h3]

lemma should_switch_high (st : Ctl.ControllerState) (n now : Int)
    (h1 : ¬ st.current_green_duration < st.min_green_time)
    (h2 : ¬ st.current_green_duration ≥ st.max_green_time)
    (h3 : ¬ n ≤ st.clearance_threshold) :
    Ctl.should_switch_signal st n now = (false, none) := by
  unfold Ctl.should_switch_signal
  rw [if_neg h1, if_neg h2, if_neg h3]

/-- C3: For every update call in GREEN phase with no emergency (and manual
override being a separate entry point), the switch decision is exactly the
claimed one: no switch when elapsed < minGreen regardless of counts; a
switch with the max-time reason when elapsed >= maxGreen; otherwise, with
the current side count n <= clearanceThreshold, the lowTrafficStartTime
timer is started (or continued) and the switch with the early-clearance
reason begins once now - lowTrafficStartTime >= clearanceWaitTime, while an
observation of n > clearanceThreshold resets lowTrafficStartTime to none. -/
theorem C3_green_switch_decision (st : Ctl.ControllerState)
    (counts : List (String × Ctl.CountData)) (now : Int)
    (hne : Ctl.check_emergency counts = none) :
    (now - st.green_start_time < st.min_green_time →
      (Ctl.update st counts now).2 =
        some ⟨false, none, none, false, "Continuing current signal"⟩ ∧
      (Ctl.update st counts now).1.current_side = st.current_side ∧
      (Ctl.update st counts now).1.signal_states = st.signal_states ∧
      (Ctl.update st counts now).1.low_traffic_start_time =
        st.low_traffic_start_time) ∧
    (¬ now - st.green_start_time < st.min_green_time →
     st.max_green_time ≤ now - st.green_start_time →
      ∃ r, (Ctl.update st counts now).2 = some r ∧ r.switched = true ∧
        r.reason = "Maximum time reached") ∧
    (¬ now - st.green_start_time < st.min_green_time →
     now - st.green_start_time < st.max_green_time →
     ((counts.lookup st.current_side).getD (Ctl.CountData.int 0)).total ≤
       st.clearance_threshold →
      (now - st.low_traffic_start_time.getD now ≥ st.clearance_wait_time →
        ∃ r, (Ctl.update st counts now).2 = some r ∧ r.switched = true ∧
          r.reason = "Early clearance - low traffic") ∧
      (¬ now - st.low_traffic_start_time.getD now ≥ st.clearance_wait_time →
        (Ctl.update st counts now).1.low_traffic_start_time =
          some (st.low_traffic_start_time.getD now) ∧
        ∃ r, (Ctl.update st counts now).2 = some r ∧ r.switched = false)) ∧
    (¬ now - st.green_start_time < st.min_green_time →
     now - st.green_start_time < st.max_green_time →
     ¬ ((counts.lookup st.current_side).getD (Ctl.CountData.int 0)).total ≤
       st.clearance_threshold →
      (Ctl.update st counts now).1.low_traffic_start_time = none ∧
      ∃ r, (Ctl.update st counts now).2 = some r ∧ r.switched = false) := by
  refine ⟨?_, ?_, ?_, ?_⟩
  · intro h1
    have hd := should_switch_lt
      { st with current_green_duration := now - st.green_start_time }
      ((counts.lookup st.current_side).getD (Ctl.CountData.int 0)).total now h1
    unfold Ctl.update
    simp only [Ctl.ENABLE_EMERGENCY_DETECTION, cond_true, hne, hd]
    exact ⟨rfl, rfl, rfl, rfl⟩
  · intro h1 h2
    have hd := should_switch_max
      { st with current_green_duration := now - st.green_start_time }
      ((counts.lookup st.current_side).getD (Ctl.CountData.int 0)).total now h1 h2
    unfold Ctl.update
    simp only [Ctl.ENABLE_EMERGENCY_DETECTION, cond_true, hne, hd]
    refine ⟨_, rfl, rfl, ?_⟩
    show Ctl.get_switch_reason _ _ = _
    unfold Ctl.get_switch_reason
    rw [if_pos h2]
  · intro h1 h2 h3
    have hd := should_switch_low
      { st with current_green_duration := now - st.green_start_time }
      ((counts.lookup st.current_side).getD (Ctl.CountData.int 0)).total now h1
      (not_le.mpr h2) h3
    constructor
    · intro h4
      unfold Ctl.update
      simp only [Ctl.ENABLE_EMERGENCY_DETECTION, cond_true, hne, hd,
        decide_eq_true h4]
      refine ⟨_, rfl, rfl, ?_⟩
      show Ctl.get_switch_reason _ _ = _
      unfold Ctl.get_switch_reason
      rw [if_neg (not_le.mpr h2)]
      rfl
    · intro h4
      unfold Ctl.update
      simp only [Ctl.ENABLE_EMERGENCY_DETECTION, cond_true, hne, hd,
        decide_eq_false h4]
      exact ⟨rfl, _, rfl, rfl⟩
  · intro h1 h2 h3
    have hd := should_switch_high
      { st with current_green_duration := now - st.green_start_time }
      ((counts.lookup st.current_side).getD (Ctl.CountData.int 0)).total now h1
      (not_le.mpr h2) h3
    unfold Ctl.update
    simp only [Ctl.ENABLE_EMERGENCY_DETECTION, cond_true, hne, hd]
    exact ⟨rfl, _, rfl, rfl⟩

/-- Witness for C3: the fresh controller at time 5 (elapsed 5 < minGreen
10) does not switch, whatever the reported counts. -/
theorem C3_witness :
    Ctl.check_emergency [("NORTH", Ctl.CountData.dict 10 false)] = none ∧
    (Ctl.update (Ctl.init Ctl.defaultConfig 0)
      [("NORTH", Ctl.CountData.dict 10 false)] 5).2 =
      some ⟨false, none, none, false, "Continuing current signal"⟩ :=
  ⟨by decide,
    ((C3_green_switch_decision (Ctl.init Ctl.defaultConfig 0)
      [("NORTH", Ctl.CountData.dict 10 false)] 5 (by decide)).1 (by decide)).1⟩

namespace Sim

lemma execute_turn_id (v : Vehicle) :
    (Vehicle.execute_turn v).vehicle_id = v.vehicle_id := by
  unfold Vehicle.execute_turn
  split_ifs <;> rfl

lemma execute_turn_type (v : Vehicle) :
    (Vehicle.execute_turn v).vehicle_type = v.vehicle_type := by
  unfold Vehicle.execute_turn
  split_ifs <;> rfl

lemma advance_id (v : Vehicle) : (Vehicle.advance v).vehicle_id = v.vehicle_id := by
  obtain ⟨s, p, ty, vid, x, y, sp, cr, cs, td, it, os⟩ := v
  cases s <;> rfl

lemma advance_type (v : Vehicle) :
    (Vehicle.advance v).vehicle_type = v.vehicle_type := by
  obtain ⟨s, p, ty, vid, x, y, sp, cr, cs, td, it, os⟩ := v
  cases s <;> rfl

lemma check_if_crossed_id (v : Vehicle) (cx cy : Int) :
    (v.check_if_crossed cx cy).vehicle_id = v.vehicle_id := by
  obtain ⟨s, p, ty, vid, x, y, sp, cr, cs, td, it, os⟩ := v
  unfold Vehicle.check_if_crossed
  cases s <;> dsimp only <;> split_ifs <;> rfl

lemma check_if_crossed_type (v : Vehicle) (cx cy : Int) :
    (v.check_if_crossed cx cy).vehicle_type = v.vehicle_type := by
  obtain ⟨s, p, ty, vid, x, y, sp, cr, cs, td, it, os⟩ := v
  unfold Vehicle.check_if_crossed
  cases s <;> dsimp only <;> split_ifs <;> rfl

lemma check_if_crossed_signal_id (v : Vehicle) (cx cy : Int) :
    (v.check_if_crossed_signal cx cy).vehicle_id = v.vehicle_id := by
  obtain ⟨s, p, ty, vid, x, y, sp, cr, cs, td, it, os⟩ := v
  unfold Vehicle.check_if_crossed_signal
  dsimp only
  by_cases h : cs = true
  · rw [if_pos h]
  · rw [if_neg h]
    cases os <;> dsimp only <;> split_ifs <;> rfl

lemma check_if_crossed_signal_type (v : Vehicle) (cx cy : Int) :
    (v.check_if_crossed_signal cx cy).vehicle_type = v.vehicle_type := by
  obtain ⟨s, p, ty, vid, x, y, sp, cr, cs, td, it, os⟩ := v
  unfold Vehicle.check_if_crossed_signal
  dsimp only
  by_cases h : cs = true
  · rw [if_pos h]
  · rw [if_neg h]
    cases os <;> dsimp only <;> split_ifs <;> rfl

lemma move_vehicle_id (v : Vehicle) (w : Int × Int) :
    (v.move w).vehicle_id = v.vehicle_id := by
  unfold Vehicle.move
  by_cases hc : v.crossed
  · rw [if_pos hc]
  · rw [if_neg hc]
    simp only
    rw [check_if_crossed_signal_id, check_if_crossed_id, advance_id]
    split_ifs with h
    · exact execute_turn_id _
    · rfl

lemma move_vehicle_type (v : Vehicle) (w : Int × Int) :
    (v.move w).vehicle_type = v.vehicle_type := by
  unfold Vehicle.move
  by_cases hc : v.crossed
  · rw [if_pos hc]
  · rw [if_neg hc]
    simp only
    rw [check_if_crossed_signal_type, check_if_crossed_type, advance_type]
    split_ifs with h
    · exact execute_turn_type _
    · rfl

lemma move_pass_mem {red : Bool} {w : Int × Int} :
    ∀ {q ahead : List Vehicle} {vm : Vehicle}, vm ∈ move_pass red w ahead q →
      ∃ v, v ∈ q ∧ (vm = v ∨ vm = v.move w) := by
  intro q
  induction q with
  | nil =>
    intro ahead vm h
    exact absurd h (List.not_mem_nil vm)
  | cons v rest ih =>
    intro ahead vm h
    simp only [move_pass] at h
    rcases List.mem_cons.mp h with h1 | h2
    · refine ⟨v, List.mem_cons_self v rest, ?_⟩
      by_cases hs : v.should_stop red ahead w
      · rw [if_pos hs] at h1
        exact Or.inl h1
      · rw [if_neg hs] at h1
        exact Or.inr h1
    · obtain ⟨u, hu, hor⟩ := ih h2
      exact ⟨u, List.mem_cons_of_mem v hu, hor⟩

lemma should_stop_of_gap (v : Vehicle) (red : Bool) (ahead : List Vehicle)
    (w : Int × Int) (hsig : v.crossed_signal = false)
    (hgap : ∃ u ∈ ahead, v.calculate_distance_to u < 50) :
    v.should_stop red ahead w = true := by
  have hany : (ahead.any fun other => v.calculate_distance_to other < 50) = true := by
    obtain ⟨u, hu, hd⟩ := hgap
    exact List.any_eq_true.mpr ⟨u, hu, by simpa using hd⟩
  unfold Vehicle.should_stop
  rw [hsig]
  simp only [Bool.false_eq_true, if_false, hany, if_true]

end Sim

/-- C8 counterexample.  Part 1: both vehicles are past the signal line on
NORTH with the phase GREEN (signal_is_red = false) and only 5 pixels apart
— well inside the 50-pixel minimum following gap — yet in the move pass the
rear vehicle advances by its full speed (from y = 395 to y = 398) instead
of staying stationary: a vehicle past the signal line ignores the
car-following check entirely.  Part 2: when the front vehicle of the same
queue has turned left (its progress along the queue axis frozen), the rear
vehicle overtakes it in a single tick — the code's own front-to-back
distance measure flips from +2 to -1. -/
theorem C8_counterexample :
    (Sim.c8_rear.calculate_distance_to Sim.c8_front < 50 ∧
     Sim.c8_rear.calculate_distance_to (Sim.c8_front.move (1920, 1080)) < 50 ∧
     Sim.move_pass false (1920, 1080) [] [Sim.c8_front, Sim.c8_rear] =
       [Sim.c8_front.move (1920, 1080), Sim.c8_rear.move (1920, 1080)] ∧
     Sim.c8_rear.y = 395 ∧
     (Sim.c8_rear.move (1920, 1080)).y = 398) ∧
    (Sim.c8t_rear.calculate_distance_to Sim.c8t_front = 2 ∧
     Sim.move_pass false (1920, 1080) [] [Sim.c8t_front, Sim.c8t_rear] =
       [Sim.c8t_front.move (1920, 1080), Sim.c8t_rear.move (1920, 1080)] ∧
     (Sim.c8t_rear.move (1920, 1080)).calculate_distance_to
       (Sim.c8t_front.move (1920, 1080)) = -1) := by
  decide

/-- C8 (amended): a vehicle that has NOT yet crossed the signal line never
advances on a tick in which some vehicle ahead of it in its queue is within
the 50-pixel minimum following gap, whatever the signal shows: in the move
pass it is left exactly in place.  (Vehicles past the signal line are
exempt from both the signal and the car-following check.) -/
theorem C8_amended_car_following (red : Bool) (w : Int × Int)
    (ahead : List Sim.Vehicle) (v : Sim.Vehicle) (rest : List Sim.Vehicle)
    (hsig : v.crossed_signal = false)
    (hgap : ∃ u ∈ ahead, v.calculate_distance_to u < 50) :
    Sim.move_pass red w ahead (v :: rest) =
      v :: Sim.move_pass red w (ahead ++ [v]) rest := by
  have hstop := Sim.should_stop_of_gap v red ahead w hsig hgap
  simp only [Sim.move_pass, hstop, if_true]

/-- Witness for the amended C8: the rear vehicle 40 pixels behind the front
one (gap < 50), before the signal line, on GREEN, stays exactly in place. -/
theorem C8_amended_witness :
    Sim.c8w_rear.crossed_signal = false ∧
    Sim.c8w_rear.calculate_distance_to Sim.c8w_front < 50 ∧
    Sim.move_pass false (1920, 1080) [Sim.c8w_front] [Sim.c8w_rear] =
      [Sim.c8w_rear] :=
  ⟨rfl, by decide, by
    have h := C8_amended_car_following false (1920, 1080) [Sim.c8w_front]
      Sim.c8w_rear [] rfl ⟨Sim.c8w_front, by simp, by decide⟩
    simpa using h⟩

/-- C9: in every tick, the queue after the update is exactly the moved
queue with the crossed vehicles removed; the total and the per-type
counters each grow by exactly the number of crossed (removed) vehicles; no
crossed vehicle survives into the next tick (so nothing can be counted
twice); and — provided the tick starts from a crossed-free state, which the
update itself re-establishes — every counted vehicle is the moved image of
a queue vehicle whose flag was still false at the start of the tick, i.e.
the flag flipped in this very tick. -/
theorem C9_exactly_once_retirement (ins : Sim.Intersection) (red : Sim.Side → Bool)
    (spawns : Sim.Side → Option Sim.Vehicle)
    (hpre : ∀ s, ∀ v ∈ ins.vehicles s, v.crossed = false)
    (hspawn : ∀ s v, spawns s = some v → v.crossed = false) :
    (∀ s, (ins.update red spawns).vehicles s =
      (Sim.moved_queue ins red spawns s).filter fun v => !v.crossed) ∧
    ((ins.update red spawns).total_vehicles_crossed = ins.total_vehicles_crossed +
      (Sim.SIDES.map fun s =>
        ((Sim.moved_queue ins red spawns s).filter fun v => v.crossed).length).sum) ∧
    (∀ t, (ins.update red spawns).vehicles_crossed_by_type t =
      ins.vehicles_crossed_by_type t +
      (Sim.SIDES.map fun s =>
        ((Sim.moved_queue ins red spawns s).filter fun v =>
          v.crossed && v.vehicle_type == t).length).sum) ∧
    (∀ s, ∀ v ∈ (ins.update red spawns).vehicles s, v.crossed = false) ∧
    (∀ s, ∀ vm ∈ Sim.moved_queue ins red spawns s, vm.crossed = true →
      ∃ v, v ∈ Sim.spawned_queue ins spawns s ∧ v.crossed = false ∧
        vm = v.move ins.window_size ∧ vm.vehicle_id = v.vehicle_id ∧
        vm.vehicle_type = v.vehicle_type) := by
  refine ⟨fun s => rfl, rfl, fun t => rfl, ?_, ?_⟩
  · intro s v hv
    have h := List.of_mem_filter hv
    simpa using h
  · intro s vm hvm hcross
    obtain ⟨v, hvmem, hor⟩ := Sim.move_pass_mem hvm
    have hvf : v.crossed = false := by
      unfold Sim.spawned_queue at hvmem
      cases hsp : spawns s with
      | none =>
        rw [hsp] at hvmem
        exact hpre s v hvmem
      | some u =>
        rw [hsp] at hvmem
        rcases List.mem_append.mp hvmem with h | h
        · exact hpre s v h
        · have hvu : v = u := by simpa using h
          exact hvu ▸ hspawn s u hsp
    rcases hor with h | h
    · rw [h, hvf] at hcross
      cases hcross
    · exact ⟨v, hvmem, hvf, h, by rw [h]; exact Sim.move_vehicle_id v _,
        by rw [h]; exact Sim.move_vehicle_type v _⟩

/-- Witness for C9 at the freshly constructed (empty) intersection with the
spawn oracle producing nothing. -/
theorem C9_witness :
    (Sim.empty_intersection.update (fun _ => true) (fun _ => none)).total_vehicles_crossed =
      Sim.empty_intersection.total_vehicles_crossed +
      (Sim.SIDES.map fun s =>
        ((Sim.moved_queue Sim.empty_intersection (fun _ => true) (fun _ => none) s).filter
          fun v => v.crossed).length).sum :=
  (C9_exactly_once_retirement Sim.empty_intersection (fun _ => true) (fun _ => none)
    (fun _ v h => absurd h (List.not_mem_nil v))
    (fun _ _ h => by cases h)).2.1

/-- C10: a vehicle whose crossed flag is true is completely frozen by
move() — every field (position, coordinates, side, turning state, and both
crossed flags) is unchanged, because move returns the vehicle untouched. -/
theorem C10_crossed_vehicle_frozen (v : Sim.Vehicle) (w : Int × Int)
    (h : v.crossed = true) : v.move w = v := by
  unfold Sim.Vehicle.move
  rw [if_pos h]

/-- Witness for C10 at a concrete crossed vehicle. -/
theorem C10_witness :
    Sim.c10_vehicle.crossed = true ∧
    Sim.c10_vehicle.move (1920, 1080) = Sim.c10_vehicle :=
  ⟨rfl, C10_crossed_vehicle_frozen Sim.c10_vehicle (1920, 1080) rfl⟩
